import Mathlib

/-!
Verification development for the Rustite query-construction layer
(src/src/database.rs, src/src/table.rs, src/src/filtered_table.rs,
src/src/extra.rs).  The Rust code is shallowly embedded: napi dynamic
values become an inductive `JsValue`, `rusqlite::types::Value` becomes
`SqlValue`, the predicate chain `FilteredTable` becomes a structure, and
the SQL-compiling methods become pure functions returning the SQL text
together with the bound parameter list.  Fallible Rust functions
(returning `napi::Result`) become `Except String`.  JS numbers (f64) are
modelled as exact rationals; the f64 values appearing in the claims are
exactly representable.  The storage engine (SQLite, an external
collaborator) is modelled just far enough to run INSERT / SELECT /
DELETE / UPDATE on an in-memory table.
-/

namespace Rustite

/-- `napi::Either<α, β>` (constructor `a` is the first alternative,
`b` the second, matching `napi::Either::A` / `napi::Either::B`). -/
inductive NEither (α β : Type) where
  | a (x : α)
  | b (x : β)
deriving DecidableEq, Repr

/-- `napi::Either<String, i64>`: the only value shapes the chain API
accepts for filter predicates. -/
abbrev SIVal := NEither String Int

/-- `rusqlite::types::Value`: the tagged union of SQL storage classes. -/
inductive SqlValue where
  | null
  | integer (i : Int)
  | real (q : Rat)
  | text (s : String)
  | blob (bytes : List Nat)
deriving DecidableEq, Repr

/-- A dynamically-typed JS value as seen through napi's `ValueType`.
An `obj` carries its JSON serialization (the model of what
`JSON.stringify` would produce for it); `sym` stands for any JS type
outside the listed ones (symbol, function, external). -/
inductive JsValue where
  | null
  | undefined
  | bool (b : Bool)
  | num (q : Rat)
  | str (s : String)
  | obj (json : String)
  | sym
deriving DecidableEq, Repr

/-- The dynamic value written into a result object by `row_to_object`
(src/src/extra.rs).  `undefined` is JS `undefined` (`env.get_undefined`),
`null` is JS `null`; the code never produces `null`, the constructor
exists so that the distinction is expressible. -/
inductive DynOut where
  | int (i : Int)
  | real (q : Rat)
  | str (s : String)
  | blob (bytes : List Nat)
  | null
  | undefined
deriving DecidableEq, Repr

/-- `js_unknown_to_rusqlite_value` (src/src/extra.rs): insert-payload
coercion.  Null/undefined map to SQL Null; booleans to Integer 0/1; a
number to Integer when it has no fractional part (`num_val.fract() ==
0.0`, i.e. the rational has denominator 1) and otherwise to Real;
strings to Text; every remaining type falls through to `Ok(Null)`. -/
def js_unknown_to_rusqlite_value : JsValue → Except String SqlValue
  | .null | .undefined => .ok .null
  | .bool b => .ok (.integer (if b then 1 else 0))
  | .num q => if q.den = 1 then .ok (.integer q.num) else .ok (.real q)
  | .str s => .ok (.text s)
  | _ => .ok .null

/-- `js_object_to_hashmap` (src/src/extra.rs): turns a JS object
(modelled as its ordered field list) into the column→value mapping used
by insert.  Object-typed fields are JSON-stringified, null/undefined
fields are skipped, everything else is kept as is. -/
def js_object_to_hashmap (fields : List (String × JsValue)) : List (String × JsValue) :=
  fields.foldl
    (fun m kv =>
      match kv.2 with
      | .obj j => m ++ [(kv.1, .str j)]
      | .undefined => m
      | .null => m
      | v => m ++ [(kv.1, v)])
    []

/-- The per-variant conversion performed by the loop body of
`row_to_object` (src/src/extra.rs): Integer/Real/Text/Blob are set under
their own representations, SQL Null is set to JS `undefined`
(`env.get_undefined`). -/
def materialize : SqlValue → DynOut
  | .integer v => .int v
  | .real v => .real v
  | .text v => .str v
  | .blob v => .blob v
  | .null => .undefined

/-- `row_to_object` (src/src/extra.rs): builds the result object, one
entry per result column, values converted by `materialize`. -/
def row_to_object (columns : List String) (vals : List SqlValue) : List (String × DynOut) :=
  (columns.zip vals).map (fun cv => (cv.1, materialize cv.2))

/-- `Table` (src/src/table.rs): a relation name plus the shared
connection handle (the connection itself is not part of the pure
model). -/
structure Table where
  name : String
deriving DecidableEq, Repr

/-- `FilteredTable` (src/src/filtered_table.rs): the predicate chain —
a head condition (`column`, `operator`, `value`), the accumulated
`extra_conditions`, and the optional ordering pair. -/
structure FilteredTable where
  table : Table
  column : String
  operator : String
  value : SIVal
  extra_conditions : List (String × String × SIVal)
  order_by : Option (String × String)
deriving DecidableEq, Repr

/-- Rust `str::to_uppercase`, modelled character-wise over the
string's data (the operator strings involved are ASCII). -/
def upperAscii (s : String) : String :=
  ⟨s.data.map Char.toUpper⟩

/-- Rust `str.split(',')`, modelled structurally over the character
list: splitting the empty string yields one empty segment, and every
comma starts a new segment. -/
def splitComma : List Char → List (List Char)
  | [] => [[]]
  | c :: cs =>
    if c = ',' then [] :: splitComma cs
    else
      match splitComma cs with
      | [] => [[c]]
      | w :: ws => (c :: w) :: ws

/-- Rust `str::trim`, modelled as dropping whitespace from both ends
of the character list. -/
def trimChars (l : List Char) : List Char :=
  ((l.dropWhile Char.isWhitespace).reverse.dropWhile Char.isWhitespace).reverse

/-- The condition list in the order `build_conditions` renders it:
head condition first, then the extra conditions. -/
def FilteredTable.conds (self : FilteredTable) : List (String × String × SIVal) :=
  (self.column, self.operator, self.value) :: self.extra_conditions

/-- The parameter bound for a condition value in the default operator
branch of `build_conditions`: `Either::A` strings become Text,
`Either::B` integers become Integer. -/
def bindFilterParam : SIVal → SqlValue
  | .a s => .text s
  | .b i => .integer i

/-- The comma-splitting done by the `"IN"` branch of
`build_conditions`: the value (an integer is stringified first) is
split on commas and each segment trimmed. -/
def inSegments (val : SIVal) : List String :=
  (splitComma (match val with
    | .a s => s
    | .b i => toString i).data).map (fun w => String.mk (trimChars w))

/-- One step of the `append_condition` closure in
`FilteredTable::build_conditions` (src/src/filtered_table.rs): appends
the rendered fragment (always followed by the separator `" AND "`) to
the SQL buffer and pushes the condition's bound parameters.  The Rust
`match op.to_uppercase()` over string patterns is rendered as the
equivalent chain of string-equality tests. -/
def appendCondition (acc : String × List SqlValue) (col op : String) (val : SIVal) :
    String × List SqlValue :=
  let u := upperAscii op
  if u = "IS NULL" ∨ u = "IS NOT NULL" then
    (acc.1 ++ (col ++ " " ++ op ++ " AND "), acc.2)
  else if u = "IN" then
    let items := inSegments val
    (acc.1 ++ (col ++ " IN (" ++ String.intercalate ", " (List.replicate items.length "?") ++ ") AND "),
     acc.2 ++ items.map SqlValue.text)
  else
    (acc.1 ++ (col ++ " " ++ op ++ " ? AND "), acc.2 ++ [bindFilterParam val])

/-- Specification-side rendering of one condition, without the
trailing separator (the fragment `append_condition` emits). -/
def renderCond (col op : String) (val : SIVal) : String :=
  let u := upperAscii op
  if u = "IS NULL" ∨ u = "IS NOT NULL" then
    col ++ " " ++ op
  else if u = "IN" then
    col ++ " IN (" ++ String.intercalate ", " (List.replicate (inSegments val).length "?") ++ ")"
  else
    col ++ " " ++ op ++ " ?"

/-- Specification-side parameter list of one condition: null-tests bind
nothing, `IN` binds each segment as Text, the default branch binds the
tagged value. -/
def condParams (_col op : String) (val : SIVal) : List SqlValue :=
  let u := upperAscii op
  if u = "IS NULL" ∨ u = "IS NOT NULL" then
    []
  else if u = "IN" then
    (inSegments val).map SqlValue.text
  else
    [bindFilterParam val]

/-- The closure `append_condition` as it is applied inside
`build_conditions`' loop. -/
def stepCond (acc : String × List SqlValue) (c : String × String × SIVal) :
    String × List SqlValue :=
  appendCondition acc c.1 c.2.1 c.2.2

/-- The final trim of `build_conditions`: Rust
`if sql.ends_with(" AND ") { sql.truncate(sql.len() - 5) }`.  Since
`" AND "` is five ASCII characters (= five bytes), the byte-level
truncate is the char-level drop of the last five characters. -/
def trimTrailingAnd (s : String) : String :=
  if (" AND ").data <:+ s.data then String.mk (s.data.take (s.data.length - 5)) else s

/-- `FilteredTable::build_conditions` (src/src/filtered_table.rs):
renders the head condition, then every extra condition, then trims the
one trailing `" AND "`. -/
def FilteredTable.build_conditions (self : FilteredTable) (sql : String)
    (params : List SqlValue) : String × List SqlValue :=
  let acc := stepCond (sql, params) (self.column, self.operator, self.value)
  let acc := self.extra_conditions.foldl stepCond acc
  (trimTrailingAnd acc.1, acc.2)

/-- Specification-side WHERE clause: the rendered fragments joined by
`" AND "`. -/
def joinAnd : List String → String
  | [] => ""
  | [f] => f
  | f :: fs => f ++ (" AND " ++ joinAnd fs)

/-- The WHERE clause `build_conditions` produces for this chain. -/
def FilteredTable.whereClause (self : FilteredTable) : String :=
  joinAnd (self.conds.map fun c => renderCond c.1 c.2.1 c.2.2)

/-- Concatenation of the parameter lists of a condition list. -/
def paramsCat : List (String × String × SIVal) → List SqlValue
  | [] => []
  | c :: cs => condParams c.1 c.2.1 c.2.2 ++ paramsCat cs

/-- The parameters `build_conditions` binds for this chain. -/
def FilteredTable.whereParams (self : FilteredTable) : List SqlValue :=
  paramsCat self.conds

/-- `FilteredTable::where_` (src/src/filtered_table.rs): arity-based
disambiguation of `(column, operator, value)` vs `(column, value)`,
then a new chain whose head is the new condition, with the previous
head pushed onto `extra_conditions` and the ordering cleared. -/
def FilteredTable.where_ (self : FilteredTable) (column : String)
    (op_or_value : NEither String SIVal) (value_opt : Option SIVal) :
    Except String FilteredTable :=
  match value_opt with
  | some v =>
    let op := match op_or_value with
      | .a op => op
      | _ => "="
    .ok { table := self.table, column := column, operator := op, value := v,
          extra_conditions := self.extra_conditions ++ [(self.column, self.operator, self.value)],
          order_by := none }
  | none =>
    match op_or_value with
    | .b v =>
      .ok { table := self.table, column := column, operator := "=", value := v,
            extra_conditions := self.extra_conditions ++ [(self.column, self.operator, self.value)],
            order_by := none }
    | _ => .error "Invalid arguments for where"

/-- `FilteredTable::order_by` (src/src/filtered_table.rs): sets the
ordering pair (direction defaults to `"ASC"`) and returns the updated
chain (the Rust method mutates `self` and returns `self.clone()`; the
pure model returns the updated value; named `order_by_` because the
structure already has the field `order_by`). -/
def FilteredTable.order_by_ (self : FilteredTable) (column : String)
    (direction : Option String) : FilteredTable :=
  { self with order_by := some (column, direction.getD "ASC") }

/-- The SQL text and parameters `FilteredTable::all` prepares
(src/src/filtered_table.rs): `SELECT * FROM <table> WHERE <conds>`
plus ` ORDER BY <col> <dir>` when an ordering is set. -/
def FilteredTable.allQuery (self : FilteredTable) : String × List SqlValue :=
  let base := "SELECT * FROM " ++ self.table.name ++ " WHERE "
  let acc := self.build_conditions base []
  (match self.order_by with
   | some (col, dir) => acc.1 ++ (" ORDER BY " ++ col ++ " " ++ dir)
   | none => acc.1,
   acc.2)

/-- The SQL text and parameters `FilteredTable::destroy` prepares
(src/src/filtered_table.rs): `DELETE FROM <table> WHERE <conds>`. -/
def FilteredTable.destroyQuery (self : FilteredTable) : String × List SqlValue :=
  let base := "DELETE FROM " ++ self.table.name ++ " WHERE "
  self.build_conditions base []

/-- The update-payload coercion of `FilteredTable::update`
(src/src/filtered_table.rs): strings to Text, numbers to Real, booleans
to Integer 0/1, everything else is the hard error
`"Unsupported value type in update"`. -/
def coerceUpdateValue : JsValue → Except String SqlValue
  | .str s => .ok (.text s)
  | .num q => .ok (.real q)
  | .bool b => .ok (.integer (if b then 1 else 0))
  | _ => .error "Unsupported value type in update"

/-- The SQL text and parameters `FilteredTable::update` prepares
(src/src/filtered_table.rs): coerce every payload field, build
`UPDATE <table> SET k = ?, … WHERE <conds>`, parameters ordered as all
SET values followed by all WHERE values. -/
def FilteredTable.updateQuery (self : FilteredTable) (data : List (String × JsValue)) :
    Except String (String × List SqlValue) := do
  let pairs ← data.mapM (fun kv => do
    let v ← coerceUpdateValue kv.2
    pure (kv.1, v))
  let set_clause := String.intercalate ", " (pairs.map fun kv => kv.1 ++ " = ?")
  let base := "UPDATE " ++ self.table.name ++ " SET " ++ set_clause ++ " WHERE "
  let acc := self.build_conditions base []
  pure (acc.1, pairs.map (·.2) ++ acc.2)

/-- `Table::where_` (src/src/table.rs): same disambiguation as the
chain's `where_`, starting a chain with no extra conditions and no
ordering. -/
def Table.where_ (self : Table) (column : String)
    (op_or_value : NEither String SIVal) (value_opt : Option SIVal) :
    Except String FilteredTable :=
  match value_opt with
  | some v =>
    let op := match op_or_value with
      | .a op => op
      | _ => "="
    .ok { table := self, column := column, operator := op, value := v,
          extra_conditions := [], order_by := none }
  | none =>
    match op_or_value with
    | .b v =>
      .ok { table := self, column := column, operator := "=", value := v,
            extra_conditions := [], order_by := none }
    | _ => .error "Invalid arguments for where"

/-- The chain `Table::first` builds (src/src/table.rs): the always-true
condition `1 = 1` with ordering `("id", "ASC")`; `Table::first` then
calls `FilteredTable::first` on it. -/
def Table.firstChain (self : Table) : FilteredTable :=
  { table := self, column := "1", operator := "=", value := .b 1,
    extra_conditions := [], order_by := some ("id", "ASC") }

/-- The chain `Table::last` builds (src/src/table.rs): the always-true
condition `1 = 1` with ordering `("id", "DESC")`; `Table::last` then
calls `FilteredTable::first` (not `last`) on it. -/
def Table.lastChain (self : Table) : FilteredTable :=
  { table := self, column := "1", operator := "=", value := .b 1,
    extra_conditions := [], order_by := some ("id", "DESC") }

/-- The chain `Table::destroy id` delegates to (src/src/table.rs): the
single condition `id = <id>`. -/
def Table.destroyChain (self : Table) (id : SIVal) : FilteredTable :=
  { table := self, column := "id", operator := "=", value := id,
    extra_conditions := [], order_by := none }

/-- The chain `Table::order_by` returns (src/src/table.rs): the
always-true condition `1 = 1` plus the given ordering (direction
defaults to `"ASC"`). -/
def Table.order_by (self : Table) (column : String) (direction : Option String) :
    FilteredTable :=
  { table := self, column := "1", operator := "=", value := .b 1,
    extra_conditions := [], order_by := some (column, direction.getD "ASC") }

/-! ### Storage-engine model

The physical engine (SQLite behind `rusqlite`) is an external
collaborator; the following is a minimal model of the behaviour the
library relies on: rows as column→value association lists, WHERE
evaluation for the operators the library renders, ORDER BY as a stable
sort, INSERT failing on an unknown column, SELECT * returning the
schema's columns in order. -/

/-- One stored row: column name → stored value. -/
abbrev Row := List (String × SqlValue)

/-- An in-memory table: its column list and its rows in insertion
order. -/
structure DbTable where
  schema : List String
  rows : List Row
deriving DecidableEq, Repr

/-- SQLite storage-class rank used for cross-class comparison and
ORDER BY: NULL < numeric < TEXT < BLOB. -/
def sqlClass : SqlValue → Nat
  | .null => 0
  | .integer _ => 1
  | .real _ => 1
  | .text _ => 2
  | .blob _ => 3

/-- The numeric content of a value of the numeric class. -/
def numOf : SqlValue → Rat
  | .integer i => (i : Rat)
  | .real q => q
  | _ => 0

def cmpRat (x y : Rat) : Ordering :=
  if x < y then .lt else if y < x then .gt else .eq

/-- Lexicographic comparison of character lists by code point
(SQLite's memcmp-style text ordering for ASCII data). -/
def cmpCharList : List Char → List Char → Ordering
  | [], [] => .eq
  | [], _ :: _ => .lt
  | _ :: _, [] => .gt
  | x :: xs, y :: ys =>
    if x.toNat < y.toNat then .lt
    else if y.toNat < x.toNat then .gt
    else cmpCharList xs ys

def cmpStr (x y : String) : Ordering :=
  cmpCharList x.data y.data

def cmpBytes : List Nat → List Nat → Ordering
  | [], [] => .eq
  | [], _ :: _ => .lt
  | _ :: _, [] => .gt
  | x :: xs, y :: ys => if x < y then .lt else if y < x then .gt else cmpBytes xs ys

/-- Total comparison of two stored values in SQLite's ORDER BY order. -/
def sqlCompare (x y : SqlValue) : Ordering :=
  if sqlClass x < sqlClass y then .lt
  else if sqlClass y < sqlClass x then .gt
  else match x, y with
    | .text s, .text t => cmpStr s t
    | .blob s, .blob t => cmpBytes s t
    | .null, .null => .eq
    | a, b => cmpRat (numOf a) (numOf b)

/-- A comparison operator applied to a row value and a bound
parameter; any comparison involving NULL is not satisfied. -/
def evalWhereOp (op : String) (lhs rhs : SqlValue) : Bool :=
  if lhs = .null ∨ rhs = .null then false
  else match op with
    | "=" => sqlCompare lhs rhs == .eq
    | "!=" => !(sqlCompare lhs rhs == .eq)
    | "<" => sqlCompare lhs rhs == .lt
    | "<=" => !(sqlCompare lhs rhs == .gt)
    | ">" => sqlCompare lhs rhs == .gt
    | ">=" => !(sqlCompare lhs rhs == .lt)
    | _ => false

/-- Recognition of an all-digit token as an SQL integer literal. -/
def parseIntLit (s : String) : Option Int :=
  match s.data with
  | [] => none
  | l =>
    if l.all Char.isDigit then
      some (l.foldl (fun n c => n * 10 + ((c.toNat : Int) - 48)) 0)
    else none

/-- The value an identifier in a rendered condition denotes for a
given row: an all-digit token (such as the `"1"` in the always-true
condition `1 = 1` built by `Table::all`) is an SQL integer literal;
anything else is a column reference, NULL when absent. -/
def columnValue (row : Row) (col : String) : SqlValue :=
  match parseIntLit col with
  | some i => .integer i
  | none => (row.lookup col).getD .null

/-- Evaluation of one rendered condition against a row, following the
three rendering modes of `build_conditions`: null-tests, `IN` over the
comma-split segments (each bound as Text), and the default
operator-with-one-parameter mode. -/
def evalCond (row : Row) (col op : String) (val : SIVal) : Bool :=
  let v := columnValue row col
  let u := upperAscii op
  if u = "IS NULL" then v == .null
  else if u = "IS NOT NULL" then !(v == .null)
  else if u = "IN" then (inSegments val).any (fun s => evalWhereOp "=" v (.text s))
  else evalWhereOp u v (bindFilterParam val)

/-- A row satisfies the chain's WHERE clause when every condition
holds (the clause is a pure conjunction). -/
def FilteredTable.matchesRow (self : FilteredTable) (row : Row) : Bool :=
  self.conds.all (fun c => evalCond row c.1 c.2.1 c.2.2)

/-- Stable insertion step for ORDER BY. -/
def insertSorted (le : Row → Row → Bool) (r : Row) : List Row → List Row
  | [] => [r]
  | x :: xs => if le x r then x :: insertSorted le r xs else r :: x :: xs

/-- Stable insertion sort for ORDER BY. -/
def sortRowsBy (le : Row → Row → Bool) : List Row → List Row
  | [] => []
  | r :: rs => insertSorted le r (sortRowsBy le rs)

/-- Row order for `ORDER BY col dir`: by the column's value, reversed
when the direction is `DESC`. -/
def rowLe (col : String) (dir : String) (r₁ r₂ : Row) : Bool :=
  let c := sqlCompare (columnValue r₁ col) (columnValue r₂ col)
  if upperAscii dir = "DESC" then !(c == .lt) else !(c == .gt)

/-- Applying an optional ORDER BY to a result set. -/
def applyOrder : Option (String × String) → List Row → List Row
  | none, rs => rs
  | some (col, dir), rs => sortRowsBy (rowLe col dir) rs

/-- Running `FilteredTable::all` against a stored row set: keep the
rows satisfying every condition, in storage order, then apply the
optional ORDER BY. -/
def FilteredTable.allRun (self : FilteredTable) (rows : List Row) : List Row :=
  applyOrder self.order_by (rows.filter self.matchesRow)

/-- Running `FilteredTable::first` (src/src/filtered_table.rs): force
the ordering to ascending on the chain's order column (or `"rowid"`
when none is set), run `all`, take the head. -/
def FilteredTable.firstRun (self : FilteredTable) (rows : List Row) : Option Row :=
  let filtered := { self with
    order_by := some ((self.order_by.map Prod.fst).getD "rowid", "ASC") }
  (filtered.allRun rows).head?

/-- Running `FilteredTable::last` (src/src/filtered_table.rs): same as
`first` but forcing the descending direction. -/
def FilteredTable.lastRun (self : FilteredTable) (rows : List Row) : Option Row :=
  let filtered := { self with
    order_by := some ((self.order_by.map Prod.fst).getD "rowid", "DESC") }
  (filtered.allRun rows).head?

/-- Running `FilteredTable::destroy`: the surviving rows and the
affected-row count (which `conn.execute` returns and the code
ignores). -/
def FilteredTable.destroyRun (self : FilteredTable) (rows : List Row) :
    List Row × Nat :=
  (rows.filter (fun r => !(self.matchesRow r)),
   (rows.filter self.matchesRow).length)

/-- Applying an UPDATE's SET pairs to one row. -/
def applySet (sets : List (String × SqlValue)) (row : Row) : Row :=
  row.map (fun cv =>
    match sets.lookup cv.1 with
    | some v => (cv.1, v)
    | none => cv)

/-- Running `FilteredTable::update`: coerce the payload (hard error on
an unsupported type), then set the payload fields on every matching
row; matching zero rows still succeeds. -/
def FilteredTable.updateRun (self : FilteredTable) (data : List (String × JsValue))
    (rows : List Row) : Except String (List Row) := do
  let pairs ← data.mapM (fun kv => do
    let v ← coerceUpdateValue kv.2
    pure (kv.1, v))
  pure (rows.map (fun r => if self.matchesRow r then applySet pairs r else r))

/-- `Table::insert` (src/src/table.rs) over a batch of payloads, all
inside one transaction: each payload becomes a column→value map
(`js_object_to_hashmap`), empty maps are skipped, a map naming a column
outside the schema fails statement preparation, values are coerced by
`js_unknown_to_rusqlite_value`; any failure aborts the whole batch (the
transaction is dropped without commit, so the caller's table is
unchanged), otherwise every staged row is committed at once. -/
def insertStep (schema : List String) (acc : List Row) (m : List (String × JsValue)) :
    Except String (List Row) :=
  if m.isEmpty then
    pure acc
  else
    match m.find? (fun kv => !(schema.contains kv.1)) with
    | some kv => throw ("no such column: " ++ kv.1)
    | none => do
      let r ← m.mapM (fun kv => do
        let v ← js_unknown_to_rusqlite_value kv.2
        pure (kv.1, v))
      pure (acc ++ [r])

def Table.insertMany (tbl : DbTable) (payloads : List (List (String × JsValue))) :
    Except String DbTable := do
  let maps := payloads.map js_object_to_hashmap
  let newRows ← maps.foldlM (insertStep tbl.schema) []
  pure { tbl with rows := tbl.rows ++ newRows }

/-- The insert coercion never fails: the value `js_unknown_to_rusqlite_value`
wraps in `Ok` (the `error` arm is unreachable). -/
def coerceOk (v : JsValue) : SqlValue :=
  match js_unknown_to_rusqlite_value v with
  | .ok w => w
  | .error _ => .null

/-- The stored row a column→value map becomes on insert. -/
def coercedRow (m : List (String × JsValue)) : Row :=
  m.map (fun kv => (kv.1, coerceOk kv.2))

/-- The rows a successful batch insert commits: every payload's map,
the empty ones skipped, each coerced. -/
def stagedRows (payloads : List (List (String × JsValue))) : List Row :=
  (((payloads.map js_object_to_hashmap).filter (fun m => !m.isEmpty)).map coercedRow)

/-- `SELECT *` materialization: for every stored row, the schema's
columns in order, absent columns read as NULL, converted by
`row_to_object`. -/
def DbTable.selectAll (tbl : DbTable) : List (List (String × DynOut)) :=
  tbl.rows.map (fun r =>
    row_to_object tbl.schema (tbl.schema.map (fun c => (r.lookup c).getD .null)))

/-- Running `Table::first` (src/src/table.rs). -/
def Table.firstRun (self : Table) (rows : List Row) : Option Row :=
  self.firstChain.firstRun rows

/-- Running `Table::last` (src/src/table.rs); note the code calls
`FilteredTable::first` on the DESC-ordered chain. -/
def Table.lastRun (self : Table) (rows : List Row) : Option Row :=
  self.lastChain.firstRun rows

/-- The query `Table::first` ends up preparing. -/
def Table.firstQuery (self : Table) : String × List SqlValue :=
  FilteredTable.allQuery { self.firstChain with
    order_by := some (((self.firstChain.order_by.map Prod.fst).getD "rowid"), "ASC") }

/-- The query `Table::last` ends up preparing (through
`FilteredTable::first`). -/
def Table.lastQuery (self : Table) : String × List SqlValue :=
  FilteredTable.allQuery { self.lastChain with
    order_by := some (((self.lastChain.order_by.map Prod.fst).getD "rowid"), "ASC") }

/-! ### Derived definitions used by the claim statements -/

/-- Concatenation of the rendered fragments, each followed by the
separator, as the `build_conditions` loop produces them. -/
def fragsAnd : List (String × String × SIVal) → String
  | [] => ""
  | c :: cs => (renderCond c.1 c.2.1 c.2.2 ++ " AND ") ++ fragsAnd cs

/-- The SELECT statement's optional ORDER BY suffix. -/
def orderSuffix : Option (String × String) → String
  | none => ""
  | some (col, dir) => " ORDER BY " ++ col ++ " " ++ dir

/-- Is this operator one of the null-test operators (compared after
uppercasing, as `build_conditions` does)? -/
def isNullTestOp (op : String) : Bool :=
  upperAscii op == "IS NULL" || upperAscii op == "IS NOT NULL"

/-- Is this operator the set-membership operator? -/
def isInOp (op : String) : Bool :=
  upperAscii op == "IN"

/-- The spec scenario chain:
`table("users").where("age", ">", 18).where("name", "IN", "ann,bob").order_by("id")`. -/
def usersScenario : Except String FilteredTable := do
  let t : Table := { name := "users" }
  let f1 ← t.where_ "age" (.a ">") (some (.b 18))
  let f2 ← f1.where_ "name" (.a "IN") (some (.a "ann,bob"))
  pure (f2.order_by_ "id" none)

/-- The spec's atomicity scenario payload batch
`[{a:1},{a:2},{bad:<unsupported type>}]` (the unsupported value is a
symbol). -/
def atomicityPayloads : List (List (String × JsValue)) :=
  [[("a", .num 1)], [("a", .num 2)], [("bad", .sym)]]

/-- The rational 1.5 = 3/2, given in normalized form so that concrete
runs reduce in the kernel. -/
def ratOneAndHalf : Rat :=
  ⟨3, 2, by decide, by decide⟩

/-- The spec's round-trip payload `{name:"a", count:3, ratio:1.5, flag:true}`. -/
def roundTripPayload : List (String × JsValue) :=
  [("name", .str "a"), ("count", .num 3), ("ratio", .num ratOneAndHalf), ("flag", .bool true)]

/-- Decidable equality on `Except`, so that concrete runs of the
fallible operations can be checked by `decide`. -/
instance {ε α : Type} [DecidableEq ε] [DecidableEq α] : DecidableEq (Except ε α) :=
  fun a b =>
    match a, b with
    | .ok x, .ok y =>
      if h : x = y then .isTrue (by rw [h]) else .isFalse (fun hc => h (by cases hc; rfl))
    | .error e, .error f =>
      if h : e = f then .isTrue (by rw [h]) else .isFalse (fun hc => h (by cases hc; rfl))
    | .ok _, .error _ => .isFalse (fun hc => Except.noConfusion hc)
    | .error _, .ok _ => .isFalse (fun hc => Except.noConfusion hc)

/-! ### Bridging lemmas: the accumulating `build_conditions` equals the
joined rendering of the condition list. -/

theorem appendCondition_eq (acc : String × List SqlValue) (col op : String) (val : SIVal) :
    appendCondition acc col op val =
      (acc.1 ++ (renderCond col op val ++ " AND "), acc.2 ++ condParams col op val) := by
  unfold appendCondition renderCond condParams
  dsimp only
  split_ifs <;> simp [String.append_assoc]

theorem foldl_stepCond (l : List (String × String × SIVal)) (acc : String × List SqlValue) :
    l.foldl stepCond acc = (acc.1 ++ fragsAnd l, acc.2 ++ paramsCat l) := by
  induction l generalizing acc with
  | nil => simp [fragsAnd, paramsCat]
  | cons c cs ih =>
    rw [List.foldl_cons, ih]
    simp [stepCond, appendCondition_eq, fragsAnd, paramsCat, String.append_assoc]

theorem fragsAnd_eq (c : String × String × SIVal) (cs : List (String × String × SIVal)) :
    fragsAnd (c :: cs) = joinAnd ((c :: cs).map fun x => renderCond x.1 x.2.1 x.2.2) ++ " AND " := by
  induction cs generalizing c with
  | nil => simp [fragsAnd, joinAnd]
  | cons d ds ih =>
    rw [fragsAnd, ih d]
    simp only [List.map_cons]
    rw [show joinAnd (renderCond c.1 c.2.1 c.2.2 ::
          renderCond d.1 d.2.1 d.2.2 :: (ds.map fun x => renderCond x.1 x.2.1 x.2.2)) =
        renderCond c.1 c.2.1 c.2.2 ++ (" AND " ++
          joinAnd (renderCond d.1 d.2.1 d.2.2 :: (ds.map fun x => renderCond x.1 x.2.1 x.2.2)))
      from rfl]
    simp [String.append_assoc]

theorem trimTrailingAnd_append (t : String) : trimTrailingAnd (t ++ " AND ") = t := by
  have hd : (t ++ " AND ").data = t.data ++ (" AND ").data := String.data_append ..
  unfold trimTrailingAnd
  rw [if_pos (by rw [hd]; exact List.suffix_append _ _)]
  rw [hd]
  have h5 : (" AND ").data.length = 5 := rfl
  rw [List.length_append, h5, Nat.add_sub_cancel, List.take_left]

theorem FilteredTable.build_conditions_eq (self : FilteredTable) (sql : String)
    (params : List SqlValue) :
    self.build_conditions sql params = (sql ++ self.whereClause, params ++ self.whereParams) := by
  unfold FilteredTable.build_conditions
  dsimp only
  rw [show self.extra_conditions.foldl stepCond
        (stepCond (sql, params) (self.column, self.operator, self.value)) =
      self.conds.foldl stepCond (sql, params) from rfl]
  rw [foldl_stepCond]
  rw [show self.conds = (self.column, self.operator, self.value) :: self.extra_conditions from rfl]
  rw [fragsAnd_eq, ← String.append_assoc, trimTrailingAnd_append]
  rfl

theorem FilteredTable.allQuery_eq (self : FilteredTable) :
    self.allQuery =
      ("SELECT * FROM " ++ self.table.name ++ " WHERE " ++ self.whereClause ++
        orderSuffix self.order_by, self.whereParams) := by
  unfold FilteredTable.allQuery
  dsimp only
  rw [FilteredTable.build_conditions_eq]
  cases self.order_by with
  | none => simp [orderSuffix, String.append_assoc]
  | some p => cases p; simp [orderSuffix, String.append_assoc]

theorem FilteredTable.destroyQuery_eq (self : FilteredTable) :
    self.destroyQuery =
      ("DELETE FROM " ++ self.table.name ++ " WHERE " ++ self.whereClause,
       self.whereParams) := by
  unfold FilteredTable.destroyQuery
  dsimp only
  rw [FilteredTable.build_conditions_eq]
  simp [String.append_assoc]

/-! ### Further helper lemmas shared by the claim theorems -/

theorem joinAnd_cons_of_ne (a : String) (l : List String) (h : l ≠ []) :
    joinAnd (a :: l) = a ++ (" AND " ++ joinAnd l) := by
  cases l with
  | nil => simp at h
  | cons b bs => rfl

theorem coerce_total (v : JsValue) :
    js_unknown_to_rusqlite_value v = .ok (coerceOk v) := by
  cases v
  case num q =>
    simp only [js_unknown_to_rusqlite_value, coerceOk]
    split <;> simp
  all_goals rfl

theorem mapM_total_ok {α β : Type} (f : α → Except String β) (g : α → β)
    (hf : ∀ a, f a = .ok (g a)) (l : List α) : l.mapM f = .ok (l.map g) := by
  induction l with
  | nil => rfl
  | cons a as ih =>
    rw [List.mapM_cons, hf a, ih]
    rfl

theorem mapM_coerce (m : List (String × JsValue)) :
    m.mapM (fun kv => do
      let v ← js_unknown_to_rusqlite_value kv.2
      pure (kv.1, v)) = Except.ok (coercedRow m) := by
  refine mapM_total_ok _ (fun kv => (kv.1, coerceOk kv.2)) (fun kv => ?_) m
  rw [coerce_total]
  rfl

theorem insert_fold_ok (schema : List String) (maps : List (List (String × JsValue))) :
    ∀ (acc out : List Row),
      maps.foldlM (insertStep schema) acc = .ok out →
      out = acc ++ ((maps.filter (fun m => !m.isEmpty)).map coercedRow) := by
  induction maps with
  | nil =>
    intro acc out h
    simp only [List.foldlM_nil] at h
    cases h
    simp
  | cons m ms ih =>
    intro acc out h
    simp only [List.foldlM_cons] at h
    by_cases he : m.isEmpty
    · rw [show insertStep schema acc m = pure acc from by
        unfold insertStep
        rw [if_pos he]] at h
      simp only [pure_bind] at h
      rw [ih acc out h]
      simp [List.filter_cons, he]
    · cases hf : m.find? (fun kv => !(schema.contains kv.1)) with
      | some kv =>
        rw [show insertStep schema acc m = Except.error ("no such column: " ++ kv.1) from by
          unfold insertStep
          rw [if_neg he, hf]
          rfl] at h
        rw [show ((Except.error ("no such column: " ++ kv.1) : Except String (List Row)) >>=
            fun b => ms.foldlM (insertStep schema) b) =
            Except.error ("no such column: " ++ kv.1) from rfl] at h
        cases h
      | none =>
        rw [show insertStep schema acc m = .ok (acc ++ [coercedRow m]) from by
          unfold insertStep
          rw [if_neg he, hf, mapM_coerce]
          rfl] at h
        rw [show ((Except.ok (acc ++ [coercedRow m]) : Except String (List Row)) >>= fun b =>
            ms.foldlM (insertStep schema) b) = ms.foldlM (insertStep schema) (acc ++ [coercedRow m])
          from rfl] at h
        rw [ih _ out h]
        simp [List.filter_cons, he]

theorem paramsCat_length (l : List (String × String × SIVal)) :
    (paramsCat l).length =
      ((l.filter fun c => isInOp c.2.1).map fun c => (inSegments c.2.2).length).sum +
        l.countP (fun c => !(isNullTestOp c.2.1) && !(isInOp c.2.1)) := by
  induction l with
  | nil => rfl
  | cons c cs ih =>
    rw [paramsCat, List.length_append, ih]
    by_cases h1 : upperAscii c.2.1 = "IS NULL" ∨ upperAscii c.2.1 = "IS NOT NULL"
    · have hn : isNullTestOp c.2.1 = true := by
        simp [isNullTestOp]
        tauto
      have hi : isInOp c.2.1 = false := by
        simp [isInOp]
        rcases h1 with h | h <;> simp [h]
      simp [condParams, h1, List.filter_cons, hi, List.countP_cons, hn]
    · by_cases h2 : upperAscii c.2.1 = "IN"
      · have hn : isNullTestOp c.2.1 = false := by
          simp [isNullTestOp]
          tauto
        have hi : isInOp c.2.1 = true := by simp [isInOp, h2]
        simp [condParams, h1, h2, List.filter_cons, hi, List.countP_cons, hn]
        all_goals omega
      · have hn : isNullTestOp c.2.1 = false := by
          simp [isNullTestOp]
          tauto
        have hi : isInOp c.2.1 = false := by simp [isInOp, h2]
        simp [condParams, h1, h2, List.filter_cons, hi, List.countP_cons, hn]
        all_goals omega

theorem whereClause_cons (ftx : FilteredTable) (hx : ftx.extra_conditions ≠ []) :
    ftx.whereClause = renderCond ftx.column ftx.operator ftx.value ++
      (" AND " ++ joinAnd (ftx.extra_conditions.map fun c => renderCond c.1 c.2.1 c.2.2)) := by
  unfold FilteredTable.whereClause FilteredTable.conds
  rw [List.map_cons]
  refine joinAnd_cons_of_ne _ _ ?_
  simpa using hx

theorem map_if_none_matches {α : Type} (p : α → Bool) (f : α → α) (l : List α)
    (hl : ∀ r ∈ l, p r = false) :
    l.map (fun r => if p r then f r else r) = l := by
  induction l with
  | nil => rfl
  | cons r rs ih =>
    have h1 : p r = false := hl r (List.mem_cons_self r rs)
    have h2 : ∀ x ∈ rs, p x = false := fun x hx => hl x (List.mem_cons_of_mem r hx)
    rw [List.map_cons, if_neg (by simp [h1]), ih h2]

theorem filter_not_then_filter {α : Type} (p : α → Bool) (l : List α) :
    (l.filter fun a => !(p a)).filter p = [] := by
  induction l with
  | nil => rfl
  | cons a as ih => by_cases h : p a <;> simp [List.filter_cons, h, ih]

theorem filter_not_idem {α : Type} (p : α → Bool) (l : List α) :
    (l.filter fun a => !(p a)).filter (fun a => !(p a)) = l.filter fun a => !(p a) := by
  induction l with
  | nil => rfl
  | cons a as ih => by_cases h : p a <;> simp [List.filter_cons, h, ih]

/-! ### Claim theorems -/

/-- **C1, counterexample.**  The claimed compilation of
`table("users").where("age", ">", 18).where("name", "IN", "ann,bob").order_by("id").all()`
— `SELECT * FROM users WHERE age > ? AND name IN (?, ?) ORDER BY id ASC`
with parameters `[18, "ann", "bob"]` — is not what the chain produces:
`where_` renders the newly added condition first, so the clause is
`name IN (?, ?) AND age > ?` with parameters `["ann", "bob", 18]`. -/
theorem c1_counterexample :
    usersScenario.map FilteredTable.allQuery ≠
      .ok ("SELECT * FROM users WHERE age > ? AND name IN (?, ?) ORDER BY id ASC",
           [SqlValue.integer 18, SqlValue.text "ann", SqlValue.text "bob"]) := by
  decide

/-- **C1, amended.**  For every chain C and every valid subsequent
`where` call producing C2, C2's compiled WHERE clause is the rendering
of the newly added condition conjoined via `" AND "` *in front of* C's
conditions (C's extra conditions in order, then C's previous head
condition last), with the bound parameters in the same order; the
scenario compiles to
`SELECT * FROM users WHERE name IN (?, ?) AND age > ? ORDER BY id ASC`
with parameters `["ann", "bob", 18]`. -/
theorem c1_where_conjoins_in_front (ft : FilteredTable) (col : String)
    (ov : NEither String SIVal) (vopt : Option SIVal) (ft' : FilteredTable)
    (h : ft.where_ col ov vopt = .ok ft') :
    ft'.whereClause =
      renderCond ft'.column ft'.operator ft'.value ++
        (" AND " ++ joinAnd ((ft.extra_conditions ++ [(ft.column, ft.operator, ft.value)]).map
          fun c => renderCond c.1 c.2.1 c.2.2)) ∧
    ft'.whereParams =
      condParams ft'.column ft'.operator ft'.value ++
        paramsCat (ft.extra_conditions ++ [(ft.column, ft.operator, ft.value)]) ∧
    usersScenario.map FilteredTable.allQuery =
      .ok ("SELECT * FROM users WHERE name IN (?, ?) AND age > ? ORDER BY id ASC",
           [SqlValue.text "ann", SqlValue.text "bob", SqlValue.integer 18]) := by
  unfold FilteredTable.where_ at h
  cases vopt with
  | some v =>
    cases ov with
    | a s =>
      simp only [Except.ok.injEq] at h
      subst h
      exact ⟨whereClause_cons _ (by simp), rfl, by decide⟩
    | b w =>
      simp only [Except.ok.injEq] at h
      subst h
      exact ⟨whereClause_cons _ (by simp), rfl, by decide⟩
  | none =>
    cases ov with
    | a s => exact absurd h (by simp)
    | b v =>
      simp only [Except.ok.injEq] at h
      subst h
      exact ⟨whereClause_cons _ (by simp), rfl, by decide⟩

/-- **C1, witness** of the amended theorem at the scenario's second
`where` call. -/
theorem c1_witness :
    ({ table := { name := "users" }, column := "name", operator := "IN",
       value := .a "ann,bob", extra_conditions := [("age", ">", NEither.b 18)],
       order_by := none } : FilteredTable).whereClause =
      renderCond "name" "IN" (.a "ann,bob") ++
        (" AND " ++ joinAnd ([("age", ">", (NEither.b 18 : SIVal))].map
          fun c => renderCond c.1 c.2.1 c.2.2)) :=
  (c1_where_conjoins_in_front
    { table := { name := "users" }, column := "age", operator := ">", value := .b 18,
      extra_conditions := [], order_by := none }
    "name" (.a "IN") (some (.a "ann,bob")) _ rfl).1

/-- **C2, counterexample.**  An unsupported value type does not make a
row fail: it is coerced to SQL Null by the catch-all arm of
`js_unknown_to_rusqlite_value`.  Against a table that has columns `a`
and `bad`, inserting `[{a:1},{a:2},{bad:<unsupported>}]` therefore
succeeds and adds three rows (the last with `bad = NULL`) — not zero
new rows as the claim states. -/
theorem c2_counterexample :
    Table.insertMany { schema := ["a", "bad"], rows := [] } atomicityPayloads =
      .ok { schema := ["a", "bad"],
            rows := [[("a", SqlValue.integer 1)], [("a", SqlValue.integer 2)],
                     [("bad", SqlValue.null)]] } ∧
    (Table.insertMany { schema := ["a", "bad"], rows := [] } atomicityPayloads).map
      (fun t => t.rows.length) ≠ .ok 0 := by
  exact ⟨by decide, by decide⟩

/-- **C2, amended.**  All payloads of an insert call are processed
inside one transaction: a successful insert appends exactly the rows of
all payloads whose field maps are nonempty (so partial batches are
never visible, and a payload with no fields is silently skipped); any
row's failure — such as naming a column absent from the table, which is
what `[{a:1},{a:2},{bad:…}]` hits when column `bad` does not exist —
aborts the whole batch with an error, leaving storage unchanged.  An
unsupported value type, however, is not a failure: it is coerced to
Null, so against a table having columns `a` and `bad` the scenario
batch inserts three rows. -/
theorem c2_insert_transaction (tbl : DbTable) (payloads : List (List (String × JsValue)))
    (tbl' : DbTable) (p : List (String × JsValue)) (ps : List (List (String × JsValue))) :
    (Table.insertMany tbl payloads = .ok tbl' →
      tbl'.schema = tbl.schema ∧ tbl'.rows = tbl.rows ++ stagedRows payloads) ∧
    (js_object_to_hashmap p = [] →
      Table.insertMany tbl (p :: ps) = Table.insertMany tbl ps) ∧
    Table.insertMany { schema := ["a"], rows := [] } atomicityPayloads =
      .error "no such column: bad" ∧
    (Table.insertMany { schema := ["a", "bad"], rows := [] } atomicityPayloads).map
      (fun t => t.rows) =
      .ok [[("a", SqlValue.integer 1)], [("a", SqlValue.integer 2)],
           [("bad", SqlValue.null)]] := by
  refine ⟨?_, ?_, by decide, by decide⟩
  · intro h
    replace h : (((payloads.map js_object_to_hashmap).foldlM (insertStep tbl.schema) []) >>=
        fun newRows =>
          pure { schema := tbl.schema, rows := tbl.rows ++ newRows }) =
        (Except.ok tbl' : Except String DbTable) := h
    cases hk : (payloads.map js_object_to_hashmap).foldlM (insertStep tbl.schema) [] with
    | error e =>
      rw [hk] at h
      exact Except.noConfusion (show Except.error e = Except.ok tbl' from h)
    | ok newRows =>
      rw [hk] at h
      replace h : (Except.ok { schema := tbl.schema, rows := tbl.rows ++ newRows } :
          Except String DbTable) = Except.ok tbl' := h
      injection h with h2
      subst h2
      exact ⟨rfl, by rw [insert_fold_ok tbl.schema _ _ _ hk]; rfl⟩
  · intro hp
    show ((((p :: ps).map js_object_to_hashmap).foldlM (insertStep tbl.schema) []) >>=
        fun newRows =>
          pure { schema := tbl.schema, rows := tbl.rows ++ newRows }) =
      ((((ps.map js_object_to_hashmap).foldlM (insertStep tbl.schema) []) >>=
        fun newRows =>
          pure { schema := tbl.schema, rows := tbl.rows ++ newRows }) :
        Except String DbTable)
    rw [List.map_cons, hp, List.foldlM_cons]
    rw [show insertStep tbl.schema [] [] = pure [] from rfl]
    rw [pure_bind]

/-- **C2, witness** of the amended theorem: a successful one-payload
insert appends exactly that payload's coerced row. -/
theorem c2_witness :
    (["a"] : List String) = ["a"] ∧
    ([[("a", SqlValue.integer 1)]] : List Row) =
      [] ++ stagedRows [[("a", JsValue.num 1)]] :=
  (c2_insert_transaction { schema := ["a"], rows := [] } [[("a", JsValue.num 1)]]
    { schema := ["a"], rows := [[("a", SqlValue.integer 1)]] } [] []).1 rfl

/-- **C3.**  `Table::first` does force the ascending `("id", "ASC")`
ordering, but `Table::last` — although it builds its chain with
`("id", "DESC")` — then calls `FilteredTable::first`, which overwrites
the direction with `"ASC"`.  So `last` prepares exactly the same query
as `first` and returns the same (ascending) head row: on a two-row
table it returns the row with id 1, not the descending head the claim
describes. -/
theorem c3_last_equals_first :
    (∀ t : Table, t.lastQuery = t.firstQuery) ∧
    (∀ (t : Table) (rows : List Row), t.lastRun rows = t.firstRun rows) ∧
    Table.firstQuery { name := "users" } =
      ("SELECT * FROM users WHERE 1 = ? ORDER BY id ASC", [SqlValue.integer 1]) ∧
    Table.lastQuery { name := "users" } =
      ("SELECT * FROM users WHERE 1 = ? ORDER BY id ASC", [SqlValue.integer 1]) ∧
    Table.lastRun { name := "t" } [[("id", SqlValue.integer 1)], [("id", SqlValue.integer 2)]] =
      some [("id", SqlValue.integer 1)] := by
  exact ⟨fun t => rfl, fun t rows => rfl, by decide, by decide, by decide⟩

/-- **C4.**  For every chain, the parameter list bound by
`build_conditions` has length (Σ over IN-conditions of their
comma-separated segment counts) + (count of conditions that are
neither null-tests nor IN); null-test conditions bind no parameter,
each IN segment is bound as Text, and a default-operator value is
bound as Text or Integer according to its tagged variant. -/
theorem c4_parameter_count (ft : FilteredTable) (sql : String) :
    ((ft.build_conditions sql []).2).length =
      ((ft.conds.filter fun c => isInOp c.2.1).map fun c => (inSegments c.2.2).length).sum +
        ft.conds.countP (fun c => !(isNullTestOp c.2.1) && !(isInOp c.2.1)) ∧
    (∀ col op val, isNullTestOp op = true → condParams col op val = []) ∧
    (∀ col op val, isInOp op = true →
        condParams col op val = (inSegments val).map SqlValue.text) ∧
    (∀ col op val, isNullTestOp op = false → isInOp op = false →
        condParams col op val = [bindFilterParam val]) := by
  refine ⟨?_, ?_, ?_, ?_⟩
  · rw [FilteredTable.build_conditions_eq]
    rw [show ((sql ++ ft.whereClause, ([] : List SqlValue) ++ ft.whereParams).2) =
      ft.whereParams from by rw [List.nil_append]]
    exact paramsCat_length ft.conds
  · intro col op val h
    have h' : upperAscii op = "IS NULL" ∨ upperAscii op = "IS NOT NULL" := by
      simpa [isNullTestOp] using h
    unfold condParams
    dsimp only
    rw [if_pos h']
  · intro col op val h
    have h' : upperAscii op = "IN" := by simpa [isInOp] using h
    unfold condParams
    dsimp only
    rw [if_neg (by rw [h']; decide), if_pos h']
  · intro col op val hn hi
    have hn' : ¬(upperAscii op = "IS NULL" ∨ upperAscii op = "IS NOT NULL") := by
      simp [isNullTestOp] at hn
      tauto
    have hi' : ¬(upperAscii op = "IN") := by simpa [isInOp] using hi
    unfold condParams
    dsimp only
    rw [if_neg hn', if_neg hi']

/-- **C4, witness**: a null-test condition binds no parameter. -/
theorem c4_witness :
    condParams "age" "IS NULL" (NEither.b 1) = [] :=
  (c4_parameter_count
    { table := { name := "users" }, column := "age", operator := "IS NULL",
      value := .b 1, extra_conditions := [], order_by := none } "").2.1
    "age" "IS NULL" (.b 1) (by decide)

/-- **C5.**  `FilteredTable::update` coerces each payload field
(string → Text, boolean → Integer 0/1, number → Real; only
Integer/Real/Text values are ever produced, and any other value type is
the hard error `"Unsupported value type in update"`), builds the
parameterized `SET k = ?, …` clause, appends the chain's WHERE-clause
compilation, and binds all SET values followed by all WHERE values;
updating when no row matches succeeds and changes nothing. -/
theorem c5_update_compilation (ft : FilteredTable) (data : List (String × JsValue)) :
    (∀ s, coerceUpdateValue (.str s) = .ok (.text s)) ∧
    (∀ b, coerceUpdateValue (.bool b) = .ok (.integer (if b then 1 else 0))) ∧
    (∀ q, coerceUpdateValue (.num q) = .ok (.real q)) ∧
    (∀ v, (∀ s, v ≠ .str s) → (∀ q, v ≠ .num q) → (∀ b, v ≠ .bool b) →
        coerceUpdateValue v = .error "Unsupported value type in update") ∧
    (∀ pairs, data.mapM (fun kv => do
          let v ← coerceUpdateValue kv.2
          pure (kv.1, v)) = Except.ok pairs →
        ft.updateQuery data = .ok
          ("UPDATE " ++ ft.table.name ++ " SET " ++
             String.intercalate ", " (pairs.map fun kv => kv.1 ++ " = ?") ++ " WHERE " ++
             ft.whereClause,
           pairs.map (·.2) ++ ft.whereParams)) ∧
    (∀ rows pairs, data.mapM (fun kv => do
          let v ← coerceUpdateValue kv.2
          pure (kv.1, v)) = Except.ok pairs →
        (∀ r ∈ rows, ft.matchesRow r = false) →
        ft.updateRun data rows = .ok rows) := by
  refine ⟨fun s => rfl, fun b => rfl, fun q => rfl, ?_, ?_, ?_⟩
  · intro v hs hq hb
    cases v <;> simp_all [coerceUpdateValue]
  · intro pairs hp
    have hq : ft.updateQuery data = .ok
        ((ft.build_conditions ("UPDATE " ++ ft.table.name ++ " SET " ++
            String.intercalate ", " (pairs.map fun kv => kv.1 ++ " = ?") ++ " WHERE ") []).1,
         pairs.map (·.2) ++
           (ft.build_conditions ("UPDATE " ++ ft.table.name ++ " SET " ++
             String.intercalate ", " (pairs.map fun kv => kv.1 ++ " = ?") ++ " WHERE ") []).2) := by
      unfold FilteredTable.updateQuery
      rw [hp]
      rfl
    rw [hq, FilteredTable.build_conditions_eq]
    rfl
  · intro rows pairs hp hnone
    have hr : ft.updateRun data rows = .ok
        (rows.map fun r => if ft.matchesRow r then applySet pairs r else r) := by
      unfold FilteredTable.updateRun
      rw [hp]
      rfl
    rw [hr, map_if_none_matches _ _ rows hnone]

/-- **C5, witness**: updating an empty row set succeeds (zero matching
rows is not an error). -/
theorem c5_witness :
    FilteredTable.updateRun
      { table := { name := "users" }, column := "id", operator := "=", value := .b 1,
        extra_conditions := [], order_by := none }
      [("name", JsValue.str "x")] [] = .ok [] :=
  (c5_update_compilation
    { table := { name := "users" }, column := "id", operator := "=", value := .b 1,
      extra_conditions := [], order_by := none }
    [("name", JsValue.str "x")]).2.2.2.2.2 [] [("name", SqlValue.text "x")] rfl
    (fun r hr => absurd hr (List.not_mem_nil r))

/-- **C6, counterexample.**  A three-argument call whose middle
argument is not a string is *accepted* (operator defaults to `"="`,
the middle argument is discarded), not rejected as the claim's "every
other call shape fails" requires: `where("age", 5, 7)` yields the
condition `age = 7`. -/
theorem c6_counterexample :
    Table.where_ { name := "users" } "age" (.b (.b 5)) (some (.b 7)) =
      .ok { table := { name := "users" }, column := "age", operator := "=",
            value := .b 7, extra_conditions := [], order_by := none } := rfl

/-- **C6, amended.**  `where` accepts `(column, operator, value)` and
`(column, value)`, disambiguated by the presence of the third argument;
in addition, a three-argument call whose second argument is not a
string is accepted with the operator defaulting to `"="`.  The only
rejected shape — for both `Table::where_` and
`FilteredTable::where_` — is a two-argument call whose second argument
is a string, which fails with `"Invalid arguments for where"`. -/
theorem c6_where_shapes (t : Table) (ft : FilteredTable) (col : String)
    (ov : NEither String SIVal) (vopt : Option SIVal) :
    (t.where_ col ov vopt = .error "Invalid arguments for where" ↔
      vopt = none ∧ ∃ s, ov = .a s) ∧
    (ft.where_ col ov vopt = .error "Invalid arguments for where" ↔
      vopt = none ∧ ∃ s, ov = .a s) ∧
    (∀ s v, t.where_ col (.a s) (some v) =
      .ok { table := t, column := col, operator := s, value := v,
            extra_conditions := [], order_by := none }) ∧
    (∀ w v, t.where_ col (.b w) (some v) =
      .ok { table := t, column := col, operator := "=", value := v,
            extra_conditions := [], order_by := none }) ∧
    (∀ v, t.where_ col (.b v) none =
      .ok { table := t, column := col, operator := "=", value := v,
            extra_conditions := [], order_by := none }) := by
  refine ⟨?_, ?_, fun s v => rfl, fun w v => rfl, fun v => rfl⟩
  · constructor
    · intro h
      cases vopt with
      | some v => cases ov <;> simp [Table.where_] at h
      | none =>
        cases ov with
        | a s => exact ⟨rfl, s, rfl⟩
        | b v => simp [Table.where_] at h
    · rintro ⟨hv, s, ho⟩
      subst hv
      subst ho
      rfl
  · constructor
    · intro h
      cases vopt with
      | some v => cases ov <;> simp [FilteredTable.where_] at h
      | none =>
        cases ov with
        | a s => exact ⟨rfl, s, rfl⟩
        | b v => simp [FilteredTable.where_] at h
    · rintro ⟨hv, s, ho⟩
      subst hv
      subst ho
      rfl

/-- **C6, witness** of the amended theorem: the two-argument shape with
a non-string second argument is accepted with operator `"="`. -/
theorem c6_witness :
    Table.where_ { name := "users" } "age" (.b (.b 5)) none =
      .ok { table := { name := "users" }, column := "age", operator := "=",
            value := .b 5, extra_conditions := [], order_by := none } :=
  (c6_where_shapes { name := "users" }
    { table := { name := "users" }, column := "1", operator := "=", value := .b 1,
      extra_conditions := [], order_by := none }
    "age" (.b (.b 5)) none).2.2.2.2 (.b 5)

/-- **C7.**  Inserting `{name:"a", count:3, ratio:1.5, flag:true}` and
reading it back yields `name="a"` as Text, `count=3` as Integer,
`ratio=1.5` as Real and `flag=1` as Integer: the insert coercion maps
booleans to Integer 0/1 and a number to Integer exactly when it has no
fractional part (else Real), and `row_to_object`'s materialization
keeps Integer and Real values under their own representations. -/
theorem c7_round_trip :
    (Table.insertMany { schema := ["name", "count", "ratio", "flag"], rows := [] }
        [roundTripPayload]).map DbTable.selectAll =
      .ok [[("name", DynOut.str "a"), ("count", DynOut.int 3),
            ("ratio", DynOut.real ratOneAndHalf), ("flag", DynOut.int 1)]] ∧
    (∀ b, js_unknown_to_rusqlite_value (.bool b) =
        .ok (.integer (if b then 1 else 0))) ∧
    (∀ q, js_unknown_to_rusqlite_value (.num q) =
        if q.den = 1 then .ok (.integer q.num) else .ok (.real q)) ∧
    (∀ i, materialize (.integer i) = .int i) ∧
    (∀ q, materialize (.real q) = .real q) := by
  exact ⟨by decide, fun b => rfl, fun q => rfl, fun i => rfl, fun q => rfl⟩

/-- **C8.**  `destroy` compiles `DELETE FROM <table> WHERE id = ?`
binding the id, and for every id and every stored row set, running it
twice succeeds both times: the second run matches zero rows (affected
count 0) and leaves the row set of the first run unchanged. -/
theorem c8_destroy_idempotent (t : Table) (id : SIVal) (rows : List Row) :
    (t.destroyChain id).destroyQuery =
      ("DELETE FROM " ++ t.name ++ " WHERE id = ?", [bindFilterParam id]) ∧
    ((t.destroyChain id).destroyRun ((t.destroyChain id).destroyRun rows).1).2 = 0 ∧
    ((t.destroyChain id).destroyRun ((t.destroyChain id).destroyRun rows).1).1 =
      ((t.destroyChain id).destroyRun rows).1 := by
  refine ⟨?_, ?_, ?_⟩
  · rw [FilteredTable.destroyQuery_eq, String.append_assoc]
    rfl
  · show ((rows.filter fun r => !((t.destroyChain id).matchesRow r)).filter
        ((t.destroyChain id).matchesRow)).length = 0
    rw [filter_not_then_filter]
    rfl
  · exact filter_not_idem _ _

/-- **C8, witness** at a concrete table: deleting id 1 twice from a
two-row table. -/
theorem c8_witness :
    (Table.destroyChain { name := "users" } (.b 1)).destroyQuery =
      ("DELETE FROM " ++ "users" ++ " WHERE id = ?", [bindFilterParam (.b 1)]) ∧
    ((Table.destroyChain { name := "users" } (.b 1)).destroyRun
        ((Table.destroyChain { name := "users" } (.b 1)).destroyRun
          [[("id", SqlValue.integer 1)], [("id", SqlValue.integer 2)]]).1).2 = 0 ∧
    ((Table.destroyChain { name := "users" } (.b 1)).destroyRun
        ((Table.destroyChain { name := "users" } (.b 1)).destroyRun
          [[("id", SqlValue.integer 1)], [("id", SqlValue.integer 2)]]).1).1 =
      ((Table.destroyChain { name := "users" } (.b 1)).destroyRun
        [[("id", SqlValue.integer 1)], [("id", SqlValue.integer 2)]]).1 :=
  c8_destroy_idempotent { name := "users" } (.b 1)
    [[("id", SqlValue.integer 1)], [("id", SqlValue.integer 2)]]

/-- **C9.**  A successful `where_` always returns a chain whose
`order_by` is `None`, whatever ordering the receiving chain carried:
an ordering applied before a `where` is silently discarded. -/
theorem c9_where_clears_ordering (ft : FilteredTable) (col : String)
    (ov : NEither String SIVal) (vopt : Option SIVal) (ft' : FilteredTable)
    (h : ft.where_ col ov vopt = .ok ft') : ft'.order_by = none := by
  unfold FilteredTable.where_ at h
  cases vopt with
  | some v =>
    cases ov with
    | a s =>
      simp only [Except.ok.injEq] at h
      subst h
      rfl
    | b w =>
      simp only [Except.ok.injEq] at h
      subst h
      rfl
  | none =>
    cases ov with
    | a s => exact absurd h (by simp)
    | b v =>
      simp only [Except.ok.injEq] at h
      subst h
      rfl

/-- **C9, witness**: a chain ordered `("id", "DESC")` loses its
ordering on the next `where`. -/
theorem c9_witness :
    ({ table := { name := "users" }, column := "b", operator := "=", value := NEither.b 2,
       extra_conditions := [("a", "=", NEither.b 1)], order_by := none } :
      FilteredTable).order_by = none :=
  c9_where_clears_ordering
    { table := { name := "users" }, column := "a", operator := "=", value := .b 1,
      extra_conditions := [], order_by := some ("id", "DESC") }
    "b" (.b (.b 2)) none _ rfl

/-- **C10.**  For every result row, `row_to_object` produces one entry
per result column (no key is dropped), a stored SQL Null is set to the
dynamic `undefined` value (never to dynamic `null`), and
Integer/Real/Text/Blob values are set under their own
representations. -/
theorem c10_null_materializes_undefined (columns : List String) (vals : List SqlValue)
    (h : columns.length = vals.length) :
    (row_to_object columns vals).map Prod.fst = columns ∧
    row_to_object columns vals =
      (columns.zip vals).map (fun cv => (cv.1, materialize cv.2)) ∧
    materialize .null = .undefined ∧
    (∀ i, materialize (.integer i) = .int i) ∧
    (∀ q, materialize (.real q) = .real q) ∧
    (∀ s, materialize (.text s) = .str s) ∧
    (∀ b, materialize (.blob b) = .blob b) ∧
    (∀ v, materialize v ≠ DynOut.null) := by
  refine ⟨?_, rfl, rfl, fun i => rfl, fun q => rfl, fun s => rfl, fun b => rfl, ?_⟩
  · rw [row_to_object, List.map_map]
    rw [show ((Prod.fst ∘ fun cv : String × SqlValue => (cv.1, materialize cv.2)) =
        (Prod.fst : String × SqlValue → String)) from rfl]
    exact List.map_fst_zip _ _ (le_of_eq h)
  · intro v
    cases v <;> simp [materialize]

/-- **C10, witness** on a one-column row holding SQL Null. -/
theorem c10_witness :
    (row_to_object ["a"] [SqlValue.null]).map Prod.fst = ["a"] ∧
    row_to_object ["a"] [SqlValue.null] =
      ((["a"].zip [SqlValue.null]).map (fun cv => (cv.1, materialize cv.2))) ∧
    materialize .null = .undefined ∧
    (∀ i, materialize (.integer i) = .int i) ∧
    (∀ q, materialize (.real q) = .real q) ∧
    (∀ s, materialize (.text s) = .str s) ∧
    (∀ b, materialize (.blob b) = .blob b) ∧
    (∀ v, materialize v ≠ DynOut.null) :=
  c10_null_materializes_undefined ["a"] [SqlValue.null] rfl

end Rustite
